import Mathlib

/-!
Verification development for the BrainDump note-capture application.

The quota / subscription state machine lives in the database as the stored
procedures `reset_daily_dump_count`, `check_daily_limit` and
`increment_daily_dump` (supabase migrations).  We embed the profiles table as
a map from user ids to profile rows, calendar dates as natural numbers
(`CURRENT_DATE` becomes an explicit `today` parameter), and each procedure as
a state-passing function.  The serverless functions `process-brain-dump` and
`verify-paypal-subscription`, and the client-side submission / realtime
handlers from `Index.tsx`, are embedded as pure functions over explicit
inputs.
-/

namespace BrainDump

/-- User identifiers (`uuid` in the database), modelled as naturals. -/
abbrev UserId := Nat

/-- Calendar dates (`DATE` in the database), modelled as naturals
(days since some epoch); `CURRENT_DATE` is a `today : CalDate` parameter. -/
abbrev CalDate := Nat

/-- One row of the `profiles` table, restricted to the columns the quota
state machine reads or writes: `subscription_status` (text, `free` or
`premium`), `last_dump_date` (nullable date) and `daily_dump_count`
(integer). -/
structure Profile where
  subscription_status : String
  last_dump_date : Option CalDate
  daily_dump_count : Int
deriving DecidableEq

/-- The `profiles` table: at most one row per user id. -/
abbrev ProfilesTable := UserId → Option Profile

/-- Effect of `reset_daily_dump_count()` on a single row: rows whose
`last_dump_date` is NULL or strictly before today get
`daily_dump_count = 0, last_dump_date = CURRENT_DATE`; other rows are
untouched. -/
def resetProfile (today : CalDate) (p : Profile) : Profile :=
  match p.last_dump_date with
  | none => { p with daily_dump_count := 0, last_dump_date := some today }
  | some d =>
      if d < today then
        { p with daily_dump_count := 0, last_dump_date := some today }
      else p

/-- `reset_daily_dump_count()`:
`UPDATE profiles SET daily_dump_count = 0, last_dump_date = CURRENT_DATE
 WHERE last_dump_date < CURRENT_DATE OR last_dump_date IS NULL`. -/
def reset_daily_dump_count (today : CalDate) (db : ProfilesTable) : ProfilesTable :=
  fun u => (db u).map (resetProfile today)

/-- The jsonb value returned by `check_daily_limit` (the latest revision of
the procedure returns the keys `can_dump` and `remaining_dumps`; earlier
revisions also returned `is_premium`, which no claim depends on). -/
structure CheckResult where
  can_dump : Bool
  remaining_dumps : Int
deriving DecidableEq

/-- `check_daily_limit(p_user_id)` in its corrected form (the revision that
fixed the check-also-increments bug, and the revision that raised the free
daily limit from 1 to 10; the two differ only in the constant
`MAX_FREE_DUMPS`, here the parameter `maxFree`).  It first performs the
global `reset_daily_dump_count()`, then reads the caller's row: if absent it
inserts a fresh row `(daily_dump_count = 0, last_dump_date = NULL)` (status
defaults to `free`) and answers `(true, maxFree)`; a `premium` row answers
`(true, -1)`; a free row dated today answers from the counter; otherwise it
answers `(true, maxFree)`.  It never updates the counter.  Returns the jsonb
result together with the table state after the call. -/
def check_daily_limit (maxFree : Int) (today : CalDate) (db : ProfilesTable)
    (uid : UserId) : CheckResult × ProfilesTable :=
  match reset_daily_dump_count today db uid with
  | none =>
      (⟨true, maxFree⟩,
       fun u => if u = uid then some ⟨"free", none, 0⟩
                else reset_daily_dump_count today db u)
  | some p =>
      if p.subscription_status = "premium" then
        (⟨true, -1⟩, reset_daily_dump_count today db)
      else if p.last_dump_date = some today then
        if p.daily_dump_count < maxFree then
          (⟨true, maxFree - p.daily_dump_count⟩, reset_daily_dump_count today db)
        else
          (⟨false, 0⟩, reset_daily_dump_count today db)
      else
        (⟨true, maxFree⟩, reset_daily_dump_count today db)

/-- `increment_daily_dump(p_user_id)`: performs the global reset, then
`UPDATE profiles SET daily_dump_count = CASE WHEN last_dump_date =
CURRENT_DATE THEN daily_dump_count + 1 ELSE 1 END, last_dump_date =
CURRENT_DATE WHERE user_id = p_user_id`, and inserts
`(daily_dump_count = 1, last_dump_date = CURRENT_DATE)` when no row
exists. -/
def increment_daily_dump (today : CalDate) (db : ProfilesTable)
    (uid : UserId) : ProfilesTable :=
  match reset_daily_dump_count today db uid with
  | some p =>
      fun u =>
        if u = uid then
          some ⟨p.subscription_status, some today,
                if p.last_dump_date = some today then p.daily_dump_count + 1 else 1⟩
        else reset_daily_dump_count today db u
  | none =>
      fun u =>
        if u = uid then some ⟨"free", some today, 1⟩
        else reset_daily_dump_count today db u

/-- Table state after `n` consecutive `check_daily_limit` calls for `uid`,
with no `increment_daily_dump` in between. -/
def checkState (maxFree : Int) (today : CalDate) (uid : UserId)
    (db : ProfilesTable) : Nat → ProfilesTable
  | 0 => db
  | n + 1 => (check_daily_limit maxFree today (checkState maxFree today uid db n) uid).2

/-- Table state after `n` consecutive `increment_daily_dump` calls for `uid`. -/
def incrIter (today : CalDate) (uid : UserId) (db : ProfilesTable) :
    Nat → ProfilesTable
  | 0 => db
  | n + 1 => increment_daily_dump today (incrIter today uid db n) uid

/-- The decision part of `check_daily_limit` as a function of the (already
reset) profile row; used to phrase reduction lemmas. -/
def checkOfProfile (maxFree : Int) (today : CalDate) (q : Profile) : CheckResult :=
  if q.subscription_status = "premium" then ⟨true, -1⟩
  else if q.last_dump_date = some today then
    if q.daily_dump_count < maxFree then ⟨true, maxFree - q.daily_dump_count⟩
    else ⟨false, 0⟩
  else ⟨true, maxFree⟩

/-- A sample profiles table used by the concrete witnesses: user 1 is
premium, user 2 is free with a stale date, user 3 is free with activity
today (taking `today = 5`). -/
def dbA : ProfilesTable := fun u =>
  if u = 1 then some ⟨"premium", some 2, 99⟩
  else if u = 2 then some ⟨"free", some 3, 7⟩
  else if u = 3 then some ⟨"free", some 5, 4⟩
  else if u = 4 then some ⟨"free", some 4, 10⟩
  else none

lemma resetProfile_status (today : CalDate) (p : Profile) :
    (resetProfile today p).subscription_status = p.subscription_status := by
  rcases hd : p.last_dump_date with _ | d
  · simp [resetProfile, hd]
  · by_cases hlt : d < today <;> simp [resetProfile, hd, hlt]

lemma resetProfile_count (today : CalDate) (p : Profile) :
    (resetProfile today p).daily_dump_count = p.daily_dump_count ∨
      (resetProfile today p).daily_dump_count = 0 := by
  rcases hd : p.last_dump_date with _ | d
  · right; simp [resetProfile, hd]
  · by_cases hlt : d < today
    · right; simp [resetProfile, hd, hlt]
    · left; simp [resetProfile, hd, hlt]

lemma resetProfile_idem (today : CalDate) (p : Profile) :
    resetProfile today (resetProfile today p) = resetProfile today p := by
  rcases hd : p.last_dump_date with _ | d
  · simp [resetProfile, hd]
  · by_cases hlt : d < today <;> simp [resetProfile, hd, hlt]

lemma check_fst (maxFree : Int) (today : CalDate) (db : ProfilesTable)
    (uid : UserId) (p : Profile) (h : db uid = some p) :
    (check_daily_limit maxFree today db uid).1 =
      checkOfProfile maxFree today (resetProfile today p) := by
  simp only [check_daily_limit, reset_daily_dump_count, h, Option.map_some', checkOfProfile]
  split_ifs <;> rfl

lemma check_snd (maxFree : Int) (today : CalDate) (db : ProfilesTable)
    (uid u : UserId) (p : Profile) (h : db u = some p) :
    (check_daily_limit maxFree today db uid).2 u = some (resetProfile today p) := by
  rcases hq : db uid with _ | q
  · have hne : u ≠ uid := by
      rintro rfl; rw [h] at hq; exact Option.noConfusion hq
    simp only [check_daily_limit, reset_daily_dump_count, hq, Option.map_none',
      if_neg hne, h, Option.map_some']
  · simp only [check_daily_limit, reset_daily_dump_count, hq, Option.map_some']
    split_ifs <;> simp [reset_daily_dump_count, h]

lemma check_snd_notfound (maxFree : Int) (today : CalDate) (db : ProfilesTable)
    (uid : UserId) (h : db uid = none) :
    (check_daily_limit maxFree today db uid).2 uid = some ⟨"free", none, 0⟩ := by
  simp [check_daily_limit, reset_daily_dump_count, h]

lemma check_fst_notfound (maxFree : Int) (today : CalDate) (db : ProfilesTable)
    (uid : UserId) (h : db uid = none) :
    (check_daily_limit maxFree today db uid).1 = ⟨true, maxFree⟩ := by
  simp [check_daily_limit, reset_daily_dump_count, h]

lemma check_fst_step (maxFree : Int) (today : CalDate) (uid : UserId)
    (db : ProfilesTable) (hm : 0 < maxFree) :
    (check_daily_limit maxFree today (check_daily_limit maxFree today db uid).2 uid).1 =
      (check_daily_limit maxFree today db uid).1 := by
  rcases hq : db uid with _ | p
  · rw [check_fst maxFree today _ uid _ (check_snd_notfound maxFree today db uid hq),
      check_fst_notfound maxFree today db uid hq]
    simp [checkOfProfile, resetProfile, hm]
  · rw [check_fst maxFree today _ uid _ (check_snd maxFree today db uid uid p hq),
      check_fst maxFree today db uid p hq, resetProfile_idem]

lemma incr_today (today : CalDate) (db : ProfilesTable) (uid : UserId)
    (p : Profile) (h : db uid = some p) (hd : p.last_dump_date = some today) :
    increment_daily_dump today db uid uid =
      some ⟨p.subscription_status, some today, p.daily_dump_count + 1⟩ := by
  have hr : resetProfile today p = p := by simp [resetProfile, hd]
  simp [increment_daily_dump, reset_daily_dump_count, h, hr, hd]

lemma incr_stale (today : CalDate) (db : ProfilesTable) (uid : UserId)
    (p : Profile) (d : CalDate) (h : db uid = some p)
    (hd : p.last_dump_date = some d) (hlt : d < today) :
    increment_daily_dump today db uid uid =
      some ⟨p.subscription_status, some today, 1⟩ := by
  have hr : resetProfile today p = ⟨p.subscription_status, some today, 0⟩ := by
    simp [resetProfile, hd, hlt]
  simp [increment_daily_dump, reset_daily_dump_count, h, hr]

lemma incrIter_stale_count (today : CalDate) (uid : UserId) (db : ProfilesTable)
    (p : Profile) (d : CalDate) (h : db uid = some p)
    (hd : p.last_dump_date = some d) (hlt : d < today) (k : Nat) :
    incrIter today uid db (k + 1) uid =
      some ⟨p.subscription_status, some today, (k : Int) + 1⟩ := by
  induction k with
  | zero => simpa using incr_stale today db uid p d h hd hlt
  | succ k ih =>
      have h2 := incr_today today (incrIter today uid db (k + 1)) uid
        ⟨p.subscription_status, some today, (k : Int) + 1⟩ ih rfl
      show increment_daily_dump today (incrIter today uid db (k + 1)) uid uid = _
      rw [h2]
      norm_num

/-- Claim C1: for every user and every profile state, calling
`check_daily_limit` any number of times in sequence, with no
`increment_daily_dump` in between, returns the same result (in particular
the same `remaining_dumps`) on every call; and the check never increments
the checked user's stored `daily_dump_count` — after a check the counter is
either unchanged or reset to 0 by the date rollover, never raised. -/
theorem checkLimit_idempotent_no_consume (maxFree : Int) (today : CalDate)
    (uid : UserId) (db : ProfilesTable) (hm : 0 < maxFree) (n : Nat) :
    (check_daily_limit maxFree today (checkState maxFree today uid db n) uid).1 =
      (check_daily_limit maxFree today db uid).1 ∧
    (∀ p p', db uid = some p →
      (check_daily_limit maxFree today db uid).2 uid = some p' →
      p'.daily_dump_count = p.daily_dump_count ∨ p'.daily_dump_count = 0) := by
  constructor
  · induction n with
    | zero => rfl
    | succ n ih =>
        rw [checkState, check_fst_step maxFree today uid _ hm, ih]
  · intro p p' hp hp'
    rw [check_snd maxFree today db uid uid p hp, Option.some_inj] at hp'
    rw [← hp']
    exact resetProfile_count today p

/-- Concrete instance of C1: three successive checks for user 2 of the
sample table report the same result as the first one. -/
theorem checkLimit_idempotent_no_consume_witness :
    (0 : Int) < 10 ∧
    (check_daily_limit 10 5 (checkState 10 5 2 dbA 3) 2).1 =
      (check_daily_limit 10 5 dbA 2).1 :=
  ⟨by norm_num, (checkLimit_idempotent_no_consume 10 5 2 dbA (by norm_num) 3).1⟩

/-- Claim C3: for a free user with daily limit 10, `check_daily_limit`
reports `can_dump = (counter_for_today < 10)` and `remaining_dumps =
max (10 - counter_for_today) 0` (clamped at 0), where the counter only
counts if `last_dump_date` is today; and starting from a stale-dated free
profile, after exactly 10 `increment_daily_dump` calls on the same date the
check reports `(false, 0)`, and an 11th increment still reports `(false, 0)`
rather than a negative remainder. -/
theorem checkLimit_free_user_rule (today : CalDate) (uid : UserId)
    (db : ProfilesTable) (p : Profile) (hp : db uid = some p)
    (hfree : p.subscription_status ≠ "premium") :
    ((check_daily_limit 10 today db uid).1.can_dump =
        decide ((if p.last_dump_date = some today then p.daily_dump_count else 0) < 10) ∧
      (check_daily_limit 10 today db uid).1.remaining_dumps =
        max (10 - (if p.last_dump_date = some today then p.daily_dump_count else 0)) 0) ∧
    (∀ d, p.last_dump_date = some d → d < today →
      (check_daily_limit 10 today (incrIter today uid db 10) uid).1 = ⟨false, 0⟩ ∧
      (check_daily_limit 10 today (incrIter today uid db 11) uid).1 = ⟨false, 0⟩) := by
  constructor
  · rw [check_fst 10 today db uid p hp]
    rcases hd : p.last_dump_date with _ | d
    · have hr : resetProfile today p = ⟨p.subscription_status, some today, 0⟩ := by
        simp [resetProfile, hd]
      rw [hr]
      simp [checkOfProfile, hfree]
    · by_cases hdt : d = today
      · have hd' : p.last_dump_date = some today := by rw [hd, hdt]
        have hr : resetProfile today p = p := by simp [resetProfile, hd']
        rw [hr]
        by_cases hcnt : p.daily_dump_count < 10
        · have : max (10 - p.daily_dump_count) 0 = 10 - p.daily_dump_count := by omega
          simp [checkOfProfile, hfree, hd', hdt, hcnt, this]
        · have : max (10 - p.daily_dump_count) 0 = 0 := by omega
          simp [checkOfProfile, hfree, hd', hdt, hcnt, this]
      · by_cases hlt : d < today
        · have hr : resetProfile today p = ⟨p.subscription_status, some today, 0⟩ := by
            simp [resetProfile, hd, hlt]
          rw [hr]
          simp [checkOfProfile, hfree, hd, hdt]
        · have hr : resetProfile today p = p := by simp [resetProfile, hd, hlt]
          rw [hr]
          simp [checkOfProfile, hfree, hd, hdt]
  · intro d hd hlt
    have h10 := incrIter_stale_count today uid db p d hp hd hlt 9
    have h11 := incrIter_stale_count today uid db p d hp hd hlt 10
    norm_num at h10 h11
    constructor
    · rw [check_fst 10 today _ uid _ h10]
      have hr : resetProfile today
          (⟨p.subscription_status, some today, 10⟩ : Profile) =
          ⟨p.subscription_status, some today, 10⟩ := by
        simp [resetProfile]
      rw [hr]
      simp [checkOfProfile, hfree]
    · rw [check_fst 10 today _ uid _ h11]
      have hr : resetProfile today
          (⟨p.subscription_status, some today, 11⟩ : Profile) =
          ⟨p.subscription_status, some today, 11⟩ := by
        simp [resetProfile]
      rw [hr]
      simp [checkOfProfile, hfree]

/-- Concrete instance of C3: user 2 of the sample table is free with a
stale date; after 10 increments today the check answers `(false, 0)`, and
after an 11th it still answers `(false, 0)`. -/
theorem checkLimit_free_user_rule_witness :
    dbA 2 = some ⟨"free", some 3, 7⟩ ∧
    (check_daily_limit 10 5 (incrIter 5 2 dbA 10) 2).1 = ⟨false, 0⟩ ∧
    (check_daily_limit 10 5 (incrIter 5 2 dbA 11) 2).1 = ⟨false, 0⟩ :=
  ⟨rfl,
   ((checkLimit_free_user_rule 5 2 dbA ⟨"free", some 3, 7⟩ rfl
      (by decide)).2 3 rfl (by norm_num)).1,
   ((checkLimit_free_user_rule 5 2 dbA ⟨"free", some 3, 7⟩ rfl
      (by decide)).2 3 rfl (by norm_num)).2⟩

/-- Claim C4: a free profile whose `last_dump_date` is strictly before
today and whose `daily_dump_count` is 10 reports `(can_dump = true,
remaining_dumps = 10)` when checked today, with no explicit reset call by
the caller. -/
theorem checkLimit_date_rollover (today : CalDate) (db : ProfilesTable)
    (uid : UserId) (p : Profile) (d : CalDate) (hp : db uid = some p)
    (hfree : p.subscription_status ≠ "premium") (hd : p.last_dump_date = some d)
    (hlt : d < today) (_hc : p.daily_dump_count = 10) :
    (check_daily_limit 10 today db uid).1 = ⟨true, 10⟩ := by
  rw [check_fst 10 today db uid p hp]
  have hr : resetProfile today p = ⟨p.subscription_status, some today, 0⟩ := by
    simp [resetProfile, hd, hlt]
  rw [hr]
  simp [checkOfProfile, hfree]

/-- Concrete instance of C4: user 4 of the sample table is free, dated
yesterday with counter 10, and checks to `(true, 10)` today. -/
theorem checkLimit_date_rollover_witness :
    dbA 4 = some ⟨"free", some 4, 10⟩ ∧
    (check_daily_limit 10 5 dbA 4).1 = ⟨true, 10⟩ :=
  ⟨rfl, checkLimit_date_rollover 5 dbA 4 ⟨"free", some 4, 10⟩ 4 rfl
    (by decide) rfl (by norm_num) rfl⟩

/-- Claim C5: every profile with `subscription_status = premium` checks to
`(can_dump = true, remaining_dumps = -1)`, the unlimited sentinel,
whatever its stored `daily_dump_count` and `last_dump_date`, and for any
value of the free-tier constant. -/
theorem checkLimit_premium_unlimited (maxFree : Int) (today : CalDate)
    (db : ProfilesTable) (uid : UserId) (p : Profile) (hp : db uid = some p)
    (hprem : p.subscription_status = "premium") :
    (check_daily_limit maxFree today db uid).1 = ⟨true, -1⟩ := by
  rw [check_fst maxFree today db uid p hp]
  simp [checkOfProfile, resetProfile_status, hprem]

/-- Concrete instance of C5: user 1 of the sample table is premium with a
stale date and a huge counter, and still checks to `(true, -1)`. -/
theorem checkLimit_premium_unlimited_witness :
    dbA 1 = some ⟨"premium", some 2, 99⟩ ∧
    (check_daily_limit 10 5 dbA 1).1 = ⟨true, -1⟩ :=
  ⟨rfl, checkLimit_premium_unlimited 10 5 dbA 1 ⟨"premium", some 2, 99⟩ rfl rfl⟩

/-- Claim C10: `check_daily_limit(uid)` first runs the global
`reset_daily_dump_count()`, so it mutates every stored profile (of any
user, not only `uid`) whose `last_dump_date` is NULL or strictly before
today, setting its counter to 0 and its date to today; every profile whose
`last_dump_date` is already today is left unchanged by the check. -/
theorem checkLimit_global_reset_frame (maxFree : Int) (today : CalDate)
    (uid : UserId) (db : ProfilesTable) :
    ∀ u p, db u = some p →
      ((p.last_dump_date = none ∨ ∃ d, p.last_dump_date = some d ∧ d < today) →
        (check_daily_limit maxFree today db uid).2 u =
          some ⟨p.subscription_status, some today, 0⟩) ∧
      (p.last_dump_date = some today →
        (check_daily_limit maxFree today db uid).2 u = some p) := by
  intro u p hp
  constructor
  · rintro (hd | ⟨d, hd, hlt⟩)
    · rw [check_snd maxFree today db uid u p hp]
      simp [resetProfile, hd]
    · rw [check_snd maxFree today db uid u p hp]
      simp [resetProfile, hd, hlt]
  · intro hd
    rw [check_snd maxFree today db uid u p hp]
    simp [resetProfile, hd]

/-- Concrete instance of C10: checking user 1 resets stale user 2 and
leaves user 3 (already dated today) untouched. -/
theorem checkLimit_global_reset_frame_witness :
    (check_daily_limit 10 5 dbA 1).2 2 = some ⟨"free", some 5, 0⟩ ∧
    (check_daily_limit 10 5 dbA 1).2 3 = some ⟨"free", some 5, 4⟩ :=
  ⟨(checkLimit_global_reset_frame 10 5 1 dbA 2 ⟨"free", some 3, 7⟩ rfl).1
      (Or.inr ⟨3, rfl, by norm_num⟩),
   (checkLimit_global_reset_frame 10 5 1 dbA 3 ⟨"free", some 5, 4⟩ rfl).2 rfl⟩

/-! ### Categorization gateway: `supabase/functions/process-brain-dump` -/

/-- One element of the `items` array in the `process-brain-dump` response
(`ProcessedItem` in the source): `category`, `refinedText`, optional
`priority`, optional `tags`. -/
structure ProcessedItem where
  category : String
  refinedText : String
  priority : Option String
  tags : Option (List String)
deriving DecidableEq

/-- Outcome of the `fetch` to the completion endpoint: either the call
fails (network error or non-2xx status, both of which throw in the
handler), or it succeeds with the model's message `content` string. -/
inductive UpstreamOutcome where
  | failure
  | success (content : String)
deriving DecidableEq

/-- Effect of `.replace(/^\x60\x60\x60(json)?\s*\x2f, '')`: removes a leading
code fence, with the optional `json` tag, and the whitespace after it. -/
def stripLeadingFence (s : String) : String :=
  if s.startsWith "```json" then (s.drop 7).dropWhile Char.isWhitespace
  else if s.startsWith "```" then (s.drop 3).dropWhile Char.isWhitespace
  else s

/-- Effect of `.replace(/\s*\x60\x60\x60$\x2f, '')`: removes a trailing code
fence and the whitespace before it. -/
def stripTrailingFence (s : String) : String :=
  if s.endsWith "```" then (s.dropRight 3).dropRightWhile Char.isWhitespace
  else s

/-- The `cleanContent` computation of the handler: trim, then strip a
leading and a trailing markdown code fence. -/
def cleanContent (content : String) : String :=
  stripTrailingFence (stripLeadingFence content.trim)

/-- The fallback item the handler produces on every failure path:
category "note", the original text as refinedText, priority "medium". -/
def fallbackItems (text : String) : List ProcessedItem :=
  [⟨"note", text, some "medium", none⟩]

/-- The `items` array produced by the `process-brain-dump` handler for a
request body `{text}`.  `JSON.parse` (an external runtime primitive) is
abstracted as the `parse` argument, returning `none` exactly when parsing
throws or the parsed value is not of the response shape.  With no API key
configured the handler answers the fallback (with status 500); on fetch
failure or non-ok status the catch-all answers the fallback; on an
unparseable body the inner catch answers the fallback; otherwise it answers
the parsed items. -/
def processBrainDump (parse : String → Option (List ProcessedItem))
    (apiKey : Option String) (upstream : UpstreamOutcome) (text : String) :
    List ProcessedItem :=
  match apiKey with
  | none => fallbackItems text
  | some _ =>
      match upstream with
      | .failure => fallbackItems text
      | .success content =>
          match parse (cleanContent content) with
          | none => fallbackItems text
          | some items => items

/-- Claim C2: whenever the completion endpoint returns unparseable JSON, or
the upstream call fails, or no API credential is configured, the
`process-brain-dump` handler returns exactly one item with category "note",
the original text unchanged as refinedText, and priority "medium"; in
particular the caller never receives zero items
and no parse exception propagates (the handler is total). -/
theorem processBrainDump_fallback (parse : String → Option (List ProcessedItem))
    (apiKey : Option String) (upstream : UpstreamOutcome) (text : String)
    (h : apiKey = none ∨ upstream = .failure ∨
      ∃ c, upstream = .success c ∧ parse (cleanContent c) = none) :
    processBrainDump parse apiKey upstream text =
      [⟨"note", text, some "medium", none⟩] ∧
    (processBrainDump parse apiKey upstream text).length = 1 := by
  have hres : processBrainDump parse apiKey upstream text =
      [⟨"note", text, some "medium", none⟩] := by
    rcases h with h | h | ⟨c, hc, hp⟩
    · simp [processBrainDump, h, fallbackItems]
    · cases apiKey <;> simp [processBrainDump, h, fallbackItems]
    · cases apiKey <;> simp [processBrainDump, hc, hp, fallbackItems]
  exact ⟨hres, by rw [hres]; rfl⟩

/-- Concrete instance of C2: with a key configured but a completion reply
that is not valid JSON (a parser refusing the cleaned reply), the input
`buy milk` yields exactly the single fallback item. -/
theorem processBrainDump_fallback_witness :
    processBrainDump (fun _ => none) (some "k")
      (.success "this is not json") "buy milk" =
      [⟨"note", "buy milk", some "medium", none⟩] :=
  (processBrainDump_fallback (fun _ => none) (some "k")
    (.success "this is not json") "buy milk"
    (Or.inr (Or.inr ⟨"this is not json", rfl, rfl⟩))).1

/-! ### Subscription gateway: `supabase/functions/verify-paypal-subscription` -/

/-- The subscription resource fetched from the billing provider.  The
handler reads only its `status` string; the resource also carries the
provider's next-billing-time (`billing_info.next_billing_time`, a
timestamp, absent on some subscriptions), which we keep in the model to
study whether the handler uses it. -/
structure RemoteSubscription where
  status : String
  next_billing_time : Option Nat
deriving DecidableEq

/-- The profile columns written by the verification handler. -/
structure LocalSubState where
  subscription_status : String
  subscription_end : Option Nat
  paypal_subscription_id : Option String
deriving DecidableEq

/-- The expiry the handler computes for an active subscription:
`endDate.setMonth(endDate.getMonth() + 1)` starting from `new Date()` —
one month ahead of the current time; the code comment calls it "30 days
from now for a monthly subscription", and we model time in days. -/
def addOneMonth (t : Nat) : Nat := t + 30

/-- The profile state written by the `verify-paypal-subscription` handler
once the subscription resource has been fetched: remote status `ACTIVE`
maps to local status "premium" with `subscription_end` one month from now,
any other remote status maps to "free" with a null `subscription_end`; the
subscription id is stored, and the previous profile row `prev` is
overwritten unconditionally (upsert on `user_id`). -/
def verifyPaypalSubscription (now : Nat) (subscriptionId : String)
    (remote : RemoteSubscription) (_prev : LocalSubState) : LocalSubState :=
  { subscription_status := if remote.status = "ACTIVE" then "premium" else "free",
    subscription_end :=
      if remote.status = "ACTIVE" then some (addOneMonth now) else none,
    paypal_subscription_id := some subscriptionId }

/-- Claim C6: the verification handler maps remote `ACTIVE` to local
status "premium" with a non-null, strictly future `subscription_end`, and
any non-`ACTIVE` remote status to local status "free" with a null
`subscription_end`; the mapping is written unconditionally, so the
resulting local state does not depend on the previous one and repeating
the call with the same remote status reproduces the same local state. -/
theorem verifySubscription_mapping (now : Nat) (subId : String)
    (remote : RemoteSubscription) (prev other : LocalSubState) :
    (remote.status = "ACTIVE" →
      (verifyPaypalSubscription now subId remote prev).subscription_status =
        "premium" ∧
      ∃ e, (verifyPaypalSubscription now subId remote prev).subscription_end =
        some e ∧ now < e) ∧
    (remote.status ≠ "ACTIVE" →
      (verifyPaypalSubscription now subId remote prev).subscription_status =
        "free" ∧
      (verifyPaypalSubscription now subId remote prev).subscription_end =
        none) ∧
    verifyPaypalSubscription now subId remote prev =
      verifyPaypalSubscription now subId remote other := by
  refine ⟨fun h => ?_, fun h => ?_, ?_⟩
  · exact ⟨by simp [verifyPaypalSubscription, h],
      addOneMonth now, by simp [verifyPaypalSubscription, h], by
        simp [addOneMonth]⟩
  · exact ⟨by simp [verifyPaypalSubscription, h],
      by simp [verifyPaypalSubscription, h]⟩
  · rfl

/-- Concrete instance of C6: an `ACTIVE` remote subscription makes a free
profile premium, a `CANCELLED` one clears the expiry, and the write does
not depend on the previous profile row. -/
theorem verifySubscription_mapping_witness :
    (verifyPaypalSubscription 0 "I-1" ⟨"ACTIVE", none⟩
      ⟨"free", none, none⟩).subscription_status = "premium" ∧
    (verifyPaypalSubscription 0 "I-1" ⟨"CANCELLED", none⟩
      ⟨"premium", some 9, none⟩).subscription_end = none ∧
    verifyPaypalSubscription 0 "I-1" ⟨"ACTIVE", none⟩ ⟨"free", none, none⟩ =
      verifyPaypalSubscription 0 "I-1" ⟨"ACTIVE", none⟩
        ⟨"premium", some 9, none⟩ :=
  ⟨((verifySubscription_mapping 0 "I-1" ⟨"ACTIVE", none⟩
      ⟨"free", none, none⟩ ⟨"free", none, none⟩).1 rfl).1,
   ((verifySubscription_mapping 0 "I-1" ⟨"CANCELLED", none⟩
      ⟨"premium", some 9, none⟩ ⟨"premium", some 9, none⟩).2.1
      (by decide)).2,
   (verifySubscription_mapping 0 "I-1" ⟨"ACTIVE", none⟩
      ⟨"free", none, none⟩ ⟨"premium", some 9, none⟩).2.2⟩

/-- The expiry rule claim C7 asserts, written from the specification text:
take the provider's next-billing-time when the resource carries one, and
fall back to a 30-day horizon only when it is absent. -/
def specNextBillingEnd (now : Nat) (remote : RemoteSubscription) : Option Nat :=
  match remote.next_billing_time with
  | some t => some t
  | none => some (now + 30)

/-- Counterexample to C7 as stated: for an `ACTIVE` subscription whose
resource carries next-billing-time 7, the handler stores `now + 30`
(here 30), not 7 — the stored expiry is not computed from the
next-billing-time field. -/
theorem verifySubscription_end_ignores_next_billing_cex :
    ¬ ((verifyPaypalSubscription 0 "I-1" ⟨"ACTIVE", some 7⟩
        ⟨"free", none, none⟩).subscription_end =
      specNextBillingEnd 0 ⟨"ACTIVE", some 7⟩) := by
  decide

/-- Claim C7, amended: when the remote status is `ACTIVE`, the stored
`subscription_end` is always one month (the 30-day horizon) from the
current time; the provider's next-billing-time field is never read, so the
result is identical whatever that field holds — the 30-day horizon is the
only rule, not a fallback for an absent field. -/
theorem verifySubscription_end_always_thirty_days (now : Nat) (subId : String)
    (remote : RemoteSubscription) (prev : LocalSubState)
    (nbt : Option Nat) (h : remote.status = "ACTIVE") :
    (verifyPaypalSubscription now subId remote prev).subscription_end =
      some (addOneMonth now) ∧
    verifyPaypalSubscription now subId remote prev =
      verifyPaypalSubscription now subId
        { remote with next_billing_time := nbt } prev := by
  exact ⟨by simp [verifyPaypalSubscription, h], rfl⟩

/-- Concrete instance of the amended C7: with the provider reporting
next-billing-time 7, the handler still stores expiry 30 (one month from
time 0). -/
theorem verifySubscription_end_always_thirty_days_witness :
    (verifyPaypalSubscription 0 "I-1" ⟨"ACTIVE", some 7⟩
      ⟨"free", none, none⟩).subscription_end = some 30 :=
  (verifySubscription_end_always_thirty_days 0 "I-1" ⟨"ACTIVE", some 7⟩
    ⟨"free", none, none⟩ none rfl).1

/-! ### Dump submission flow: `handleSubmit` in `src/pages/Index.tsx` -/

/-- The externally observable calls `handleSubmit` makes, in order:
the `check_daily_limit` RPC (via `checkDumpLimit`), the
`process-brain-dump` invocation (via `processWithAI`), the batch insert
into `brain_dumps` (via `saveBrainDumps`, one insert of `n` rows), and the
`increment_daily_dump` RPC (via `incrementDailyDumpCount`). -/
inductive SubmitEv where
  | checkLimit
  | categorize
  | insertRows (n : Nat)
  | increment
deriving DecidableEq

/-- The call trace of `handleSubmit` for an authenticated user:
`checkDumpLimit` first; if `can_dump` is false it stops (limit toast);
otherwise `processWithAI` (which never throws), then the batch insert of
the fanned-out items; if the insert throws the catch block skips the rest;
otherwise, only for non-premium users, a single `increment_daily_dump`,
and finally `loadUsageInfo()`, which issues a second `check_daily_limit`
RPC through `checkDumpLimit` to refresh the displayed remaining count. -/
def handleSubmit (canDump : Bool) (nItems : Nat) (saveOk : Bool)
    (isPremium : Bool) : List SubmitEv :=
  if canDump then
    if saveOk then
      [.checkLimit, .categorize, .insertRows nItems] ++
        (if isPremium then [] else [.increment]) ++ [.checkLimit]
    else [.checkLimit, .categorize, .insertRows nItems]
  else [.checkLimit]

/-- Every occurrence of `a` in the trace happens strictly before every
occurrence of `b`. -/
def eventBefore (tr : List SubmitEv) (a b : SubmitEv) : Prop :=
  ∀ i j : Fin tr.length, tr.get i = a → tr.get j = b → (i : Nat) < (j : Nat)

instance (tr : List SubmitEv) (a b : SubmitEv) : Decidable (eventBefore tr a b) := by
  unfold eventBefore
  infer_instance

/-- Counterexample to C8 as stated: in an accepted free-user submission
that fans out into 2 items, the categorization call is NOT invoked before
the quota check/increment — the gating `check_daily_limit` precedes it —
and in an accepted premium submission `increment_daily_dump` is not
invoked exactly once per accepted batch: it is not invoked at all. -/
theorem submit_categorize_first_cex :
    ¬ (eventBefore (handleSubmit true 2 true false) .categorize .checkLimit ∧
       eventBefore (handleSubmit true 2 true false) .categorize .increment) ∧
    ¬ ((handleSubmit true 2 true true).count .increment = 1) := by
  decide

/-- Claim C8, amended: in every accepted submission the caller invokes the
quota check BEFORE the categorization call — the trace starts with the
gating `check_daily_limit` and contains exactly one categorization —
and `increment_daily_dump` is invoked exactly once per accepted batch for
a non-premium user, independently of how many items the batch fanned out
into, after the categorization step succeeded, while an accepted premium
batch invokes no increment at all. -/
theorem submit_check_then_categorize_then_increment (n : Nat) (prem : Bool) :
    (handleSubmit true n true prem).head? = some .checkLimit ∧
    (handleSubmit true n true prem).count .categorize = 1 ∧
    (handleSubmit true n true prem).count .increment =
      (if prem then 0 else 1) ∧
    (prem = false →
      List.Sublist [SubmitEv.categorize, SubmitEv.increment]
        (handleSubmit true n true prem)) := by
  cases prem
  · have htr : handleSubmit true n true false =
        [SubmitEv.checkLimit, SubmitEv.categorize, SubmitEv.insertRows n,
         SubmitEv.increment, SubmitEv.checkLimit] := by
      simp [handleSubmit]
    refine ⟨?_, ?_, ?_, ?_⟩
    · rw [htr]; rfl
    · rw [htr]; simp [List.count_cons]
    · rw [htr]; simp [List.count_cons]
    · intro _
      rw [htr]
      exact .cons _ (.cons₂ _ (.cons _ (.cons₂ _ (.cons _ .slnil))))
  · have htr : handleSubmit true n true true =
        [SubmitEv.checkLimit, SubmitEv.categorize, SubmitEv.insertRows n,
         SubmitEv.checkLimit] := by
      simp [handleSubmit]
    refine ⟨?_, ?_, ?_, ?_⟩
    · rw [htr]; rfl
    · rw [htr]; simp [List.count_cons]
    · rw [htr]; simp [List.count_cons]
    · intro h
      exact absurd h (by simp)

/-- Concrete instance of the amended C8: for a free user whose submission
fans out into 2 items, the trace contains exactly one increment, placed
after the categorization. -/
theorem submit_check_then_categorize_then_increment_witness :
    (handleSubmit true 2 true false).count SubmitEv.increment = 1 ∧
    List.Sublist [SubmitEv.categorize, SubmitEv.increment]
      (handleSubmit true 2 true false) :=
  ⟨by simpa using (submit_check_then_categorize_then_increment 2 false).2.2.1,
   (submit_check_then_categorize_then_increment 2 false).2.2.2 rfl⟩

/-! ### Realtime fan-out: `Index.tsx` handlers and `useRealtimeBrainDumps` -/

/-- The client-side `BrainDump` record (interface `BrainDump` in
`CategorySection`, as built by the realtime payload handlers): identifier,
display text, category, creation timestamp, completion flag, tag list.
Identifiers (uuids) are modelled as naturals. -/
structure BrainDumpEntry where
  id : Nat
  text : String
  category : String
  timestamp : Nat
  completed : Bool
  tags : List String
deriving DecidableEq

/-- `handleRealtimeInsert`: ignore the event if some held dump already has
the incoming id, else prepend the new dump. -/
def handleRealtimeInsert (dump : BrainDumpEntry) (prev : List BrainDumpEntry) :
    List BrainDumpEntry :=
  if prev.any (fun d => d.id == dump.id) then prev else dump :: prev

/-- `handleRealtimeUpdate`: replace every held dump carrying the incoming
id by the incoming dump. -/
def handleRealtimeUpdate (dump : BrainDumpEntry) (prev : List BrainDumpEntry) :
    List BrainDumpEntry :=
  prev.map (fun d => if d.id == dump.id then dump else d)

/-- `handleRealtimeDelete`: drop every held dump carrying the deleted
id. -/
def handleRealtimeDelete (i : Nat) (prev : List BrainDumpEntry) :
    List BrainDumpEntry :=
  prev.filter (fun d => d.id != i)

/-- One event delivered by the `brain_dumps_changes` channel. -/
inductive RtEvent where
  | insert (dump : BrainDumpEntry)
  | update (dump : BrainDumpEntry)
  | delete (id : Nat)

/-- Dispatch of `useRealtimeBrainDumps`: insert, update and delete
payloads go to the respective `Index.tsx` callback. -/
def applyRtEvent (ev : RtEvent) (prev : List BrainDumpEntry) :
    List BrainDumpEntry :=
  match ev with
  | .insert d => handleRealtimeInsert d prev
  | .update d => handleRealtimeUpdate d prev
  | .delete i => handleRealtimeDelete i prev

/-- The local list after a sequence of realtime events. -/
def applyRtEvents (evs : List RtEvent) (prev : List BrainDumpEntry) :
    List BrainDumpEntry :=
  evs.foldl (fun st ev => applyRtEvent ev st) prev

lemma insert_known_id_unchanged (d : BrainDumpEntry) (prev : List BrainDumpEntry)
    (h : d.id ∈ prev.map (fun x => x.id)) :
    handleRealtimeInsert d prev = prev := by
  obtain ⟨x, hx, hid⟩ := List.mem_map.mp h
  have hany : prev.any (fun y => y.id == d.id) = true :=
    List.any_eq_true.mpr ⟨x, hx, by simp [hid]⟩
  simp [handleRealtimeInsert, hany]

lemma update_ids_unchanged (d : BrainDumpEntry) (prev : List BrainDumpEntry) :
    (handleRealtimeUpdate d prev).map (fun x => x.id) =
      prev.map (fun x => x.id) := by
  induction prev with
  | nil => rfl
  | cons x xs ih =>
      by_cases hx : x.id = d.id
      · simpa [handleRealtimeUpdate, hx] using by
          simpa [handleRealtimeUpdate] using ih
      · simpa [handleRealtimeUpdate, hx] using by
          simpa [handleRealtimeUpdate] using ih

lemma rtEvent_nodup_preserved (ev : RtEvent) (prev : List BrainDumpEntry)
    (h : (prev.map (fun x => x.id)).Nodup) :
    ((applyRtEvent ev prev).map (fun x => x.id)).Nodup := by
  cases ev with
  | insert d =>
      by_cases hmem : d.id ∈ prev.map (fun x => x.id)
      · simpa [applyRtEvent, insert_known_id_unchanged d prev hmem] using h
      · have hany : prev.any (fun y => y.id == d.id) = false := by
          rcases hb : prev.any (fun y => y.id == d.id) with _ | _
          · rfl
          · obtain ⟨x, hx, hxe⟩ := List.any_eq_true.mp hb
            exact absurd (List.mem_map.mpr ⟨x, hx, by simpa using hxe⟩) hmem
        simp only [applyRtEvent, handleRealtimeInsert, hany, Bool.false_eq_true,
          if_false, List.map_cons]
        exact List.nodup_cons.mpr ⟨hmem, h⟩
  | update d =>
      simpa [applyRtEvent, update_ids_unchanged d prev] using h
  | delete i =>
      exact List.Nodup.sublist
        ((List.filter_sublist prev).map (fun x => x.id)) h

lemma applyRtEvents_nodup (evs : List RtEvent) :
    ∀ prev : List BrainDumpEntry, (prev.map (fun x => x.id)).Nodup →
      ((applyRtEvents evs prev).map (fun x => x.id)).Nodup := by
  induction evs with
  | nil => intro prev h; exact h
  | cons ev evs ih =>
      intro prev h
      exact ih (applyRtEvent ev prev) (rtEvent_nodup_preserved ev prev h)

/-- Claim C9: the realtime client deduplicates inserts by identifier — an
insert event whose id is already held leaves the local list unchanged —
and consequently, starting from a list with no duplicate ids, no sequence
of insert/update/delete events ever produces two entries with the same
id. -/
theorem realtime_insert_dedup (prev : List BrainDumpEntry) (d : BrainDumpEntry)
    (evs : List RtEvent) (hnd : (prev.map (fun x => x.id)).Nodup) :
    (d.id ∈ prev.map (fun x => x.id) → handleRealtimeInsert d prev = prev) ∧
    ((applyRtEvents evs prev).map (fun x => x.id)).Nodup :=
  ⟨fun h => insert_known_id_unchanged d prev h, applyRtEvents_nodup evs prev hnd⟩

/-- A concrete dump row used by the realtime witness. -/
def sampleDump (i : Nat) : BrainDumpEntry := ⟨i, "t", "note", 0, false, []⟩

/-- Concrete instance of C9: re-inserting an already-held id leaves the
list unchanged, and a mixed event sequence keeps the ids duplicate-free. -/
theorem realtime_insert_dedup_witness :
    handleRealtimeInsert (sampleDump 1) [sampleDump 1, sampleDump 2] =
      [sampleDump 1, sampleDump 2] ∧
    ((applyRtEvents [.insert (sampleDump 1), .insert (sampleDump 3),
        .delete 2, .update (sampleDump 3)]
      [sampleDump 1, sampleDump 2]).map (fun x => x.id)).Nodup :=
  ⟨(realtime_insert_dedup [sampleDump 1, sampleDump 2] (sampleDump 1)
      [] (by decide)).1 (by decide),
   (realtime_insert_dedup [sampleDump 1, sampleDump 2] (sampleDump 1)
      [.insert (sampleDump 1), .insert (sampleDump 3),
        .delete 2, .update (sampleDump 3)] (by decide)).2⟩

end BrainDump
